import Mathlib

/-!
Verification of the signer-manager concurrency coordinator.

The embedded code is the nonce manager (service/nonce_manager.py, class
OptimisticNonceManager) and the gateway handlers (service/main.py).  The
service runs on a single-threaded cooperative scheduler (asyncio), and every
nonce-manager method body runs entirely under the manager's internal lock
(async with self.lock), so each method is an atomic state transformer; the
embedding models each method as a pure function on an explicit state.

The external network fetch (get_nonce_from_api) is an out-of-scope
collaborator: its outcome is passed in as an oracle argument of type
Option Int (some n = the endpoint returned nonce n, none = fetch failed or
timed out), mirroring the try/except around every call site.

Python truthiness matters at two points: the code tests strings with
plain "if x:", so None and the empty string are both falsy; strTruthy
models this.
-/

namespace SignerManager

/-- Python truthiness of an optional string: None and "" are falsy. -/
def strTruthy : Option String → Bool
  | none => false
  | some s => !s.isEmpty

/-- State of OptimisticNonceManager:
nonces  models self.nonces : Dict[int, Dict[int, int]] (a nested dict);
apiUrls models self.api_urls : Dict[int, str];
accountLocks models self.account_locks : Dict[Tuple[int,int], asyncio.Lock],
with lock objects identified by the Nat id they were allocated with, so
that object identity of locks is observable; nextLockId supplies fresh
ids for newly constructed lock objects. -/
structure NonceManagerState where
  nonces : Int → Option (Int → Option Int)
  apiUrls : Int → Option String
  accountLocks : Int → Int → Option Nat
  nextLockId : Nat

/-- The state of the freshly constructed manager: all dicts empty. -/
def emptyState : NonceManagerState :=
  { nonces := fun _ => none
    apiUrls := fun _ => none
    accountLocks := fun _ _ => none
    nextLockId := 0 }

/-- Two-level lookup: account_index in self.nonces and api_key_index in
self.nonces[account_index]. -/
def lookupNonce (st : NonceManagerState) (a k : Int) : Option Int :=
  match st.nonces a with
  | none => none
  | some inner => inner k

/-- self.nonces[a][k] = v, creating the inner dict when absent (the code
always creates the missing inner dict right before writing). -/
def setNonce (st : NonceManagerState) (a k v : Int) : NonceManagerState :=
  let inner := (st.nonces a).getD (fun _ => none)
  { st with
    nonces := fun i =>
      if i = a then some (fun j => if j = k then some v else inner j)
      else st.nonces i }

/-- self.api_urls[a] = u. -/
def setApiUrl (st : NonceManagerState) (a : Int) (u : String) : NonceManagerState :=
  { st with apiUrls := fun i => if i = a then some u else st.apiUrls i }

/-- The initialization block at the top of get_next_nonce (lines 114-132):
when the (a, k) entry is missing, seed it; with a truthy api_url the URL is
recorded and the seed is fetched nonce minus 1 (falling back to 0 on fetch
failure), otherwise the seed is 0.  Returns the current cached value
together with the state after the block. -/
def gnnInit (st : NonceManagerState) (a k : Int) (api_url : Option String)
    (fetch : Option Int) : Int × NonceManagerState :=
  match lookupNonce st a k with
  | some c => (c, st)
  | none =>
    if strTruthy api_url then
      let st1 := setApiUrl st a (api_url.getD "")
      match fetch with
      | some n => (n - 1, setNonce st1 a k (n - 1))
      | none => (0, setNonce st1 a k 0)
    else (0, setNonce st a k 0)

/-- OptimisticNonceManager.get_next_nonce (lines 95-151).  After the
initialization block: a provided_nonce greater than or equal to 0 is
honored and returned, advancing the cache only when it exceeds the cached
value (a smaller one only logs a warning); otherwise the cache is
incremented and the incremented value returned. -/
def get_next_nonce (st : NonceManagerState) (a k provided : Int)
    (api_url : Option String) (fetch : Option Int) : Int × NonceManagerState :=
  let p := gnnInit st a k api_url fetch
  if 0 ≤ provided then
    if p.1 < provided then (provided, setNonce p.2 a k provided)
    else (provided, p.2)
  else (p.1 + 1, setNonce p.2 a k (p.1 + 1))

/-- OptimisticNonceManager.acknowledge_failure (lines 153-166): decrement
the cached value when the entry exists, otherwise do nothing. -/
def acknowledge_failure (st : NonceManagerState) (a k : Int) : NonceManagerState :=
  match lookupNonce st a k with
  | some c => setNonce st a k (c - 1)
  | none => st

/-- OptimisticNonceManager.hard_refresh_nonce (lines 168-190): with no
truthy registered URL for the account, or on fetch failure, do nothing;
on a successful fetch of n, overwrite the cached value with n - 1. -/
def hard_refresh_nonce (st : NonceManagerState) (a k : Int)
    (fetch : Option Int) : NonceManagerState :=
  if strTruthy (st.apiUrls a) then
    match fetch with
    | some n => setNonce st a k (n - 1)
    | none => st
  else st

/-- OptimisticNonceManager.get_current_nonce (lines 192-197): the cached
value, or -1 when the entry does not exist; never writes. -/
def get_current_nonce (st : NonceManagerState) (a k : Int) : Int :=
  (lookupNonce st a k).getD (-1)

/-- OptimisticNonceManager.get_account_lock (lines 199-214): return the
existing lock for (a, k), or construct a fresh lock, store it and return
it.  The whole body runs without any await point, hence atomically under
cooperative scheduling. -/
def get_account_lock (st : NonceManagerState) (a k : Int) :
    Nat × NonceManagerState :=
  match st.accountLocks a k with
  | some id => (id, st)
  | none =>
    (st.nextLockId,
      { st with
        accountLocks := fun i j =>
          if i = a ∧ j = k then some st.nextLockId else st.accountLocks i j
        nextLockId := st.nextLockId + 1 })

/-- OptimisticNonceManager.initialize_account (lines 67-93): record the
URL, then seed the (a, k) entry when absent: fetched nonce minus 1, or 0
on fetch failure. -/
def initialize_account (st : NonceManagerState) (a k : Int) (url : String)
    (fetch : Option Int) : NonceManagerState :=
  let st1 := setApiUrl st a url
  match lookupNonce st1 a k with
  | some _ => st1
  | none =>
    match fetch with
    | some n => setNonce st1 a k (n - 1)
    | none => setNonce st1 a k 0

/-- The operations of the nonce manager, one constructor per public
method, with external fetch outcomes supplied as oracle data. -/
inductive NonceOp
  | initAcct (a k : Int) (url : String) (fetch : Option Int)
  | nextNonce (a k provided : Int) (apiUrl : Option String) (fetch : Option Int)
  | ackFailure (a k : Int)
  | hardRefresh (a k : Int) (fetch : Option Int)
  | currentNonce (a k : Int)
  | acctLock (a k : Int)

/-- The state transformer of each nonce-manager operation (the read-only
get_current_nonce leaves the state unchanged). -/
def applyOp : NonceOp → NonceManagerState → NonceManagerState
  | .initAcct a k url fetch, st => initialize_account st a k url fetch
  | .nextNonce a k p u f, st => (get_next_nonce st a k p u f).2
  | .ackFailure a k, st => acknowledge_failure st a k
  | .hardRefresh a k f, st => hard_refresh_nonce st a k f
  | .currentNonce _ _, st => st
  | .acctLock a k, st => (get_account_lock st a k).2

/-! Basic lemmas about the state primitives. -/

theorem lookupNonce_setNonce_self (st : NonceManagerState) (a k v : Int) :
    lookupNonce (setNonce st a k v) a k = some v := by
  simp [lookupNonce, setNonce]

theorem lookupNonce_setApiUrl (st : NonceManagerState) (a : Int) (u : String)
    (a' k' : Int) : lookupNonce (setApiUrl st a u) a' k' = lookupNonce st a' k' := rfl

theorem accountLocks_setNonce (st : NonceManagerState) (a k v : Int) :
    (setNonce st a k v).accountLocks = st.accountLocks := rfl

theorem accountLocks_setApiUrl (st : NonceManagerState) (a : Int) (u : String) :
    (setApiUrl st a u).accountLocks = st.accountLocks := rfl

theorem gnnInit_of_some (st : NonceManagerState) (a k : Int)
    (u : Option String) (f : Option Int) (c : Int)
    (h : lookupNonce st a k = some c) : gnnInit st a k u f = (c, st) := by
  simp [gnnInit, h]

/-- With an existing entry, a negative provided nonce takes the
auto-increment branch: the cache becomes c + 1 and c + 1 is returned. -/
theorem get_next_nonce_auto (st : NonceManagerState) (a k c : Int)
    (h : lookupNonce st a k = some c) (p : Int) (hp : p < 0)
    (u : Option String) (f : Option Int) :
    get_next_nonce st a k p u f = (c + 1, setNonce st a k (c + 1)) := by
  rw [get_next_nonce, gnnInit_of_some st a k u f c h]
  simp [not_le.mpr hp]

/-! Iterated auto-increment calls, for the counting claim. -/

/-- The state after n auto-increment calls (provided_nonce = -1, no API
URL) for the pair (a, k). -/
def autoIter (st : NonceManagerState) (a k : Int) : Nat → NonceManagerState
  | 0 => st
  | n + 1 => (get_next_nonce (autoIter st a k n) a k (-1) none none).2

/-- The value returned by the (n+1)-th auto-increment call. -/
def autoNth (st : NonceManagerState) (a k : Int) (n : Nat) : Int :=
  (get_next_nonce (autoIter st a k n) a k (-1) none none).1

theorem autoIter_lookup (st : NonceManagerState) (a k c : Int)
    (h : lookupNonce st a k = some c) :
    ∀ n : Nat, lookupNonce (autoIter st a k n) a k = some (c + n)
  | 0 => by simpa using h
  | n + 1 => by
    have ih := autoIter_lookup st a k c h n
    rw [autoIter, get_next_nonce_auto _ a k (c + n) ih (-1) (by norm_num) none none,
      lookupNonce_setNonce_self]
    push_cast
    ring_nf

/-- C1: starting from a counter just created at 0 (no API URL, so no
endpoint seed), successive auto-increment calls (provided_nonce = -1)
return 1, 2, 3, ...: the call numbered n+1 returns n+1. -/
theorem C1_auto_sequence (st : NonceManagerState) (a k : Int)
    (h : lookupNonce st a k = some 0) (n : Nat) :
    autoNth st a k n = (n : Int) + 1 := by
  have hl := autoIter_lookup st a k 0 h n
  rw [autoNth, get_next_nonce_auto _ a k ((0 : Int) + n)
    (by simpa using hl) (-1) (by norm_num) none none]
  push_cast
  ring

/-- A concrete manager state holding the single entry nonces[7][2] = 0,
no URLs, no locks. -/
def st0 : NonceManagerState :=
  { nonces := fun a =>
      if a = 7 then some (fun k => if k = 2 then some 0 else none) else none
    apiUrls := fun _ => none
    accountLocks := fun _ _ => none
    nextLockId := 0 }

theorem C1_auto_sequence_witness :
    lookupNonce st0 7 2 = some 0 ∧ autoNth st0 7 2 2 = (2 : Int) + 1 :=
  ⟨by decide, C1_auto_sequence st0 7 2 (by decide) 2⟩

/-! C2: get_next_nonce then acknowledge_failure as a round-trip. -/

/-- C2 fails as stated: with the cache at 0, a provided nonce of 5 moves
the cache to 5, and acknowledge_failure then leaves 4, not the pre-call
value 0; the round-trip does not hold for provided nonces above the
cache. -/
theorem C2_roundtrip_counterexample :
    get_current_nonce
        (acknowledge_failure (get_next_nonce st0 7 2 5 none none).2 7 2) 7 2
      ≠ get_current_nonce st0 7 2 := by
  decide

/-- acknowledge_failure right after a write decrements the written value. -/
theorem acknowledge_failure_setNonce (st : NonceManagerState) (a k v : Int) :
    acknowledge_failure (setNonce st a k v) a k
      = setNonce (setNonce st a k v) a k (v - 1) := by
  rw [acknowledge_failure, lookupNonce_setNonce_self]

theorem get_current_setNonce (st : NonceManagerState) (a k v : Int) :
    get_current_nonce (setNonce st a k v) a k = v := by
  rw [get_current_nonce, lookupNonce_setNonce_self]
  rfl

/-- With an existing entry, a supplied nonce strictly above the cache is
returned and written to the cache. -/
theorem get_next_nonce_above (st : NonceManagerState) (a k c p : Int)
    (u : Option String) (f : Option Int) (h : lookupNonce st a k = some c)
    (hp : 0 ≤ p) (hlt : c < p) :
    get_next_nonce st a k p u f = (p, setNonce st a k p) := by
  rw [get_next_nonce, gnnInit_of_some st a k u f c h]
  simp [hp, hlt]

/-- With an existing entry, a supplied nonce at or below the cache is
returned and the state is untouched. -/
theorem get_next_nonce_not_above (st : NonceManagerState) (a k c p : Int)
    (u : Option String) (f : Option Int) (h : lookupNonce st a k = some c)
    (hp : 0 ≤ p) (hle : p ≤ c) :
    get_next_nonce st a k p u f = (p, st) := by
  rw [get_next_nonce, gnnInit_of_some st a k u f c h]
  simp [hp, not_lt.mpr hle]

/-- C2 amended: for an initialized pair with cached value c,
acknowledge_failure immediately after a get_next_nonce call restores
get_current_nonce to exactly its pre-call value precisely when the call
supplied no nonce (provided_nonce negative, i.e. the -1 sentinel) or
supplied exactly c + 1; for every other argument the round-trip fails. -/
theorem C2_roundtrip_iff (st : NonceManagerState) (a k c p : Int)
    (u : Option String) (f : Option Int) (h : lookupNonce st a k = some c) :
    (get_current_nonce (acknowledge_failure (get_next_nonce st a k p u f).2 a k) a k
        = get_current_nonce st a k)
      ↔ (p < 0 ∨ p = c + 1) := by
  have hpre : get_current_nonce st a k = c := by
    rw [get_current_nonce, h]
    rfl
  by_cases hp : 0 ≤ p
  · by_cases hlt : c < p
    · have hL : get_current_nonce
          (acknowledge_failure (get_next_nonce st a k p u f).2 a k) a k = p - 1 := by
        rw [get_next_nonce_above st a k c p u f h hp hlt]
        show get_current_nonce (acknowledge_failure (setNonce st a k p) a k) a k = p - 1
        rw [acknowledge_failure_setNonce, get_current_setNonce]
      rw [hL, hpre]
      constructor
      · intro he
        right
        omega
      · rintro (hneg | heq) <;> omega
    · have hack : acknowledge_failure st a k = setNonce st a k (c - 1) := by
        rw [acknowledge_failure, h]
      have hL : get_current_nonce
          (acknowledge_failure (get_next_nonce st a k p u f).2 a k) a k = c - 1 := by
        rw [get_next_nonce_not_above st a k c p u f h hp (not_lt.mp hlt)]
        show get_current_nonce (acknowledge_failure st a k) a k = c - 1
        rw [hack, get_current_setNonce]
      rw [hL, hpre]
      have hle : p ≤ c := not_lt.mp hlt
      constructor
      · intro he
        omega
      · rintro (hneg | heq) <;> omega
  · have hpneg : p < 0 := not_le.mp hp
    have hL : get_current_nonce
        (acknowledge_failure (get_next_nonce st a k p u f).2 a k) a k = c + 1 - 1 := by
      rw [get_next_nonce_auto st a k c h p hpneg u f]
      show get_current_nonce (acknowledge_failure (setNonce st a k (c + 1)) a k) a k
        = c + 1 - 1
      rw [acknowledge_failure_setNonce, get_current_setNonce]
    rw [hL, hpre]
    constructor
    · intro _
      exact Or.inl hpneg
    · intro _
      omega

theorem C2_roundtrip_iff_witness :
    lookupNonce st0 7 2 = some 0 ∧
      ((get_current_nonce
            (acknowledge_failure (get_next_nonce st0 7 2 (-1) none none).2 7 2) 7 2
          = get_current_nonce st0 7 2)
        ↔ ((-1 : Int) < 0 ∨ (-1 : Int) = 0 + 1)) :=
  ⟨by decide, C2_roundtrip_iff st0 7 2 0 (-1) none none (by decide)⟩

/-! C4 and C5: supplied nonces above and below the cache. -/

/-- C4: with the cache at c and a supplied nonce s with 0 <= s and c < s,
get_next_nonce returns s and advances the cache to s, and the next
unspecified (sentinel) call returns s + 1. -/
theorem C4_supplied_above_cache (st : NonceManagerState) (a k c s : Int)
    (u u' : Option String) (f f' : Option Int)
    (h : lookupNonce st a k = some c) (hs : 0 ≤ s) (hcs : c < s) :
    (get_next_nonce st a k s u f).1 = s ∧
      lookupNonce (get_next_nonce st a k s u f).2 a k = some s ∧
      (get_next_nonce (get_next_nonce st a k s u f).2 a k (-1) u' f').1 = s + 1 := by
  have hstep : get_next_nonce st a k s u f = (s, setNonce st a k s) := by
    rw [get_next_nonce, gnnInit_of_some st a k u f c h]
    simp [hs, hcs]
  refine ⟨by rw [hstep], by rw [hstep]; exact lookupNonce_setNonce_self st a k s, ?_⟩
  rw [hstep, get_next_nonce_auto _ a k s (lookupNonce_setNonce_self st a k s)
    (-1) (by norm_num) u' f']

theorem C4_supplied_above_cache_witness :
    lookupNonce st0 7 2 = some 0 ∧ (0 : Int) ≤ 5 ∧ (0 : Int) < 5 ∧
      ((get_next_nonce st0 7 2 5 none none).1 = 5 ∧
        lookupNonce (get_next_nonce st0 7 2 5 none none).2 7 2 = some 5 ∧
        (get_next_nonce (get_next_nonce st0 7 2 5 none none).2 7 2 (-1) none none).1 = 5 + 1) :=
  ⟨by decide, by decide, by decide,
    C4_supplied_above_cache st0 7 2 0 5 none none none none (by decide) (by decide) (by decide)⟩

/-- C5: with the cache at c and a supplied nonce s with 0 <= s < c,
get_next_nonce returns s and leaves the whole manager state unchanged
(in particular the cache stays at c); the request is not rejected. -/
theorem C5_supplied_below_cache (st : NonceManagerState) (a k c s : Int)
    (u : Option String) (f : Option Int)
    (h : lookupNonce st a k = some c) (hs : 0 ≤ s) (hsc : s < c) :
    get_next_nonce st a k s u f = (s, st) := by
  rw [get_next_nonce, gnnInit_of_some st a k u f c h]
  simp [hs, not_lt.mpr hsc.le]

/-- A concrete manager state holding the single entry nonces[7][2] = 9. -/
def st9 : NonceManagerState :=
  { nonces := fun a =>
      if a = 7 then some (fun k => if k = 2 then some 9 else none) else none
    apiUrls := fun _ => none
    accountLocks := fun _ _ => none
    nextLockId := 0 }

theorem C5_supplied_below_cache_witness :
    lookupNonce st9 7 2 = some 9 ∧ (0 : Int) ≤ 4 ∧ (4 : Int) < 9 ∧
      get_next_nonce st9 7 2 4 none none = (4, st9) :=
  ⟨by decide, by decide, by decide,
    C5_supplied_below_cache st9 7 2 9 4 none none (by decide) (by decide) (by decide)⟩

/-! C6: hard refresh overwrites the cache to fetched - 1. -/

/-- C6: for an account whose registered endpoint URL is truthy, a hard
refresh that successfully fetches f overwrites the cached counter for
(a, k) to f - 1, and the next unspecified get_next_nonce call returns f. -/
theorem C6_hard_refresh (st : NonceManagerState) (a k f : Int)
    (u : Option String) (f' : Option Int)
    (h : strTruthy (st.apiUrls a) = true) :
    lookupNonce (hard_refresh_nonce st a k (some f)) a k = some (f - 1) ∧
      (get_next_nonce (hard_refresh_nonce st a k (some f)) a k (-1) u f').1 = f := by
  have href : hard_refresh_nonce st a k (some f) = setNonce st a k (f - 1) := by
    simp [hard_refresh_nonce, h]
  refine ⟨by rw [href]; exact lookupNonce_setNonce_self st a k (f - 1), ?_⟩
  rw [href, get_next_nonce_auto _ a k (f - 1) (lookupNonce_setNonce_self st a k (f - 1))
    (-1) (by norm_num) u f']
  ring_nf

/-- A concrete manager state with api_urls[7] registered and no nonce
entries. -/
def stUrl : NonceManagerState :=
  { nonces := fun _ => none
    apiUrls := fun a => if a = 7 then some "http:endpoint" else none
    accountLocks := fun _ _ => none
    nextLockId := 0 }

theorem C6_hard_refresh_witness :
    strTruthy (stUrl.apiUrls 7) = true ∧
      (lookupNonce (hard_refresh_nonce stUrl 7 2 (some 50)) 7 2 = some (50 - 1) ∧
        (get_next_nonce (hard_refresh_nonce stUrl 7 2 (some 50)) 7 2 (-1) none none).1 = 50) :=
  ⟨by decide, C6_hard_refresh stUrl 7 2 50 none none (by decide)⟩

/-! C10: reading an uninitialized pair. -/

/-- C10: for a pair with no entry, get_current_nonce returns -1, does not
raise, and does not create an entry (the operation leaves the state
untouched). -/
theorem C10_uninitialized_current (st : NonceManagerState) (a k : Int)
    (h : lookupNonce st a k = none) :
    get_current_nonce st a k = -1 ∧ applyOp (.currentNonce a k) st = st := by
  refine ⟨?_, rfl⟩
  rw [get_current_nonce, h]
  rfl

theorem C10_uninitialized_current_witness :
    lookupNonce emptyState 5 6 = none ∧
      (get_current_nonce emptyState 5 6 = -1 ∧
        applyOp (.currentNonce 5 6) emptyState = emptyState) :=
  ⟨by decide, C10_uninitialized_current emptyState 5 6 (by decide)⟩

/-! C9: monotone growth of the nonce and lock maps, and identity of the
handed-out lock. -/

/-- Characterization of a nonce write at every key. -/
theorem lookupNonce_setNonce (st : NonceManagerState) (a k v a' k' : Int) :
    lookupNonce (setNonce st a k v) a' k' =
      if a' = a then
        (if k' = k then some v else ((st.nonces a).getD (fun _ => none)) k')
      else lookupNonce st a' k' := by
  by_cases ha : a' = a
  · subst ha
    by_cases hk : k' = k
    · subst hk
      simp [lookupNonce, setNonce]
    · simp [lookupNonce, setNonce, hk]
  · simp [lookupNonce, setNonce, ha]

theorem lookupNonce_setNonce_isSome (st : NonceManagerState) (a k v a' k' : Int)
    (h : (lookupNonce st a' k').isSome = true) :
    (lookupNonce (setNonce st a k v) a' k').isSome = true := by
  rw [lookupNonce_setNonce]
  by_cases ha : a' = a
  · subst ha
    by_cases hk : k' = k
    · simp [hk]
    · simp only [if_pos rfl, if_neg hk]
      cases hst : st.nonces a' with
      | none =>
        rw [lookupNonce, hst] at h
        exact absurd h (by simp)
      | some inner =>
        rw [lookupNonce, hst] at h
        simpa using h
  · simp only [if_neg ha]
    exact h

theorem gnnInit_isSome (st : NonceManagerState) (a k : Int)
    (u : Option String) (f : Option Int) (a' k' : Int)
    (h : (lookupNonce st a' k').isSome = true) :
    (lookupNonce (gnnInit st a k u f).2 a' k').isSome = true := by
  rw [gnnInit]
  cases lookupNonce st a k with
  | some c => exact h
  | none =>
    by_cases hu : strTruthy u
    · simp only [hu, if_true]
      cases f with
      | some n =>
        exact lookupNonce_setNonce_isSome _ a k (n - 1) a' k'
          (by rw [lookupNonce_setApiUrl]; exact h)
      | none =>
        exact lookupNonce_setNonce_isSome _ a k 0 a' k'
          (by rw [lookupNonce_setApiUrl]; exact h)
    · simp only [hu, if_false]
      exact lookupNonce_setNonce_isSome st a k 0 a' k' h

theorem get_next_nonce_isSome (st : NonceManagerState) (a k p : Int)
    (u : Option String) (f : Option Int) (a' k' : Int)
    (h : (lookupNonce st a' k').isSome = true) :
    (lookupNonce (get_next_nonce st a k p u f).2 a' k').isSome = true := by
  have h1 := gnnInit_isSome st a k u f a' k' h
  rw [get_next_nonce]
  by_cases hp : 0 ≤ p
  · simp only [hp, if_true]
    by_cases hlt : (gnnInit st a k u f).1 < p
    · simp only [hlt, if_true]
      exact lookupNonce_setNonce_isSome _ a k p a' k' h1
    · simp only [hlt, if_false]
      exact h1
  · simp only [hp, if_false]
    exact lookupNonce_setNonce_isSome _ a k _ a' k' h1

theorem gnnInit_accountLocks (st : NonceManagerState) (a k : Int)
    (u : Option String) (f : Option Int) :
    (gnnInit st a k u f).2.accountLocks = st.accountLocks := by
  rw [gnnInit]
  cases lookupNonce st a k with
  | some c => rfl
  | none =>
    by_cases hu : strTruthy u
    · simp only [hu, if_true]
      cases f <;> rfl
    · simp only [hu, if_false]
      rfl

theorem get_next_nonce_accountLocks (st : NonceManagerState) (a k p : Int)
    (u : Option String) (f : Option Int) :
    (get_next_nonce st a k p u f).2.accountLocks = st.accountLocks := by
  rw [get_next_nonce]
  by_cases hp : 0 ≤ p
  · simp only [hp, if_true]
    by_cases hlt : (gnnInit st a k u f).1 < p
    · simp only [hlt, if_true, accountLocks_setNonce]
      exact gnnInit_accountLocks st a k u f
    · simp only [hlt, if_false]
      exact gnnInit_accountLocks st a k u f
  · simp only [hp, if_false, accountLocks_setNonce]
    exact gnnInit_accountLocks st a k u f

theorem applyOp_isSome (op : NonceOp) (st : NonceManagerState) (a k : Int)
    (h : (lookupNonce st a k).isSome = true) :
    (lookupNonce (applyOp op st) a k).isSome = true := by
  cases op with
  | initAcct a' k' url f =>
    cases f with
    | some n =>
      rw [applyOp, initialize_account]
      cases hl : lookupNonce (setApiUrl st a' url) a' k' with
      | some c => rw [lookupNonce_setApiUrl]; exact h
      | none =>
        exact lookupNonce_setNonce_isSome _ a' k' (n - 1) a k
          (by rw [lookupNonce_setApiUrl]; exact h)
    | none =>
      rw [applyOp, initialize_account]
      cases hl : lookupNonce (setApiUrl st a' url) a' k' with
      | some c => rw [lookupNonce_setApiUrl]; exact h
      | none =>
        exact lookupNonce_setNonce_isSome _ a' k' 0 a k
          (by rw [lookupNonce_setApiUrl]; exact h)
  | nextNonce a' k' p u f => exact get_next_nonce_isSome st a' k' p u f a k h
  | ackFailure a' k' =>
    rw [applyOp, acknowledge_failure]
    cases lookupNonce st a' k' with
    | some c => exact lookupNonce_setNonce_isSome st a' k' (c - 1) a k h
    | none => exact h
  | hardRefresh a' k' f =>
    cases f with
    | some n =>
      rw [applyOp, hard_refresh_nonce]
      by_cases hu : strTruthy (st.apiUrls a')
      · simp only [hu, if_true]
        exact lookupNonce_setNonce_isSome st a' k' (n - 1) a k h
      · simp only [hu, if_false]
        exact h
    | none =>
      rw [applyOp, hard_refresh_nonce]
      by_cases hu : strTruthy (st.apiUrls a')
      · simp only [hu, if_true]
        exact h
      · simp only [hu, if_false]
        exact h
  | currentNonce a' k' => exact h
  | acctLock a' k' =>
    rw [applyOp, get_account_lock]
    cases st.accountLocks a' k' with
    | some id => exact h
    | none => exact h

theorem applyOp_accountLocks (op : NonceOp) (st : NonceManagerState)
    (a k : Int) (id : Nat) (h : st.accountLocks a k = some id) :
    (applyOp op st).accountLocks a k = some id := by
  cases op with
  | initAcct a' k' url f =>
    cases f with
    | some n =>
      rw [applyOp, initialize_account]
      cases lookupNonce (setApiUrl st a' url) a' k' with
      | some c => exact h
      | none => exact h
    | none =>
      rw [applyOp, initialize_account]
      cases lookupNonce (setApiUrl st a' url) a' k' with
      | some c => exact h
      | none => exact h
  | nextNonce a' k' p u f =>
    rw [applyOp, get_next_nonce_accountLocks]
    exact h
  | ackFailure a' k' =>
    rw [applyOp, acknowledge_failure]
    cases lookupNonce st a' k' with
    | some c => exact h
    | none => exact h
  | hardRefresh a' k' f =>
    cases f with
    | some n =>
      rw [applyOp, hard_refresh_nonce]
      by_cases hu : strTruthy (st.apiUrls a')
      · simp only [hu, if_true]
        exact h
      · simp only [hu, if_false]
        exact h
    | none =>
      rw [applyOp, hard_refresh_nonce]
      by_cases hu : strTruthy (st.apiUrls a')
      · simp only [hu, if_true]
        exact h
      · simp only [hu, if_false]
        exact h
  | currentNonce a' k' => exact h
  | acctLock a' k' =>
    rw [applyOp, get_account_lock]
    cases hl : st.accountLocks a' k' with
    | some i => exact h
    | none =>
      simp only
      by_cases hak : a = a' ∧ k = k'
      · obtain ⟨h1, h2⟩ := hak
        subst h1; subst h2
        rw [h] at hl
        exact absurd hl (by simp)
      · simp only [if_neg hak]
        exact h

/-- A get_account_lock call on a pair whose lock already exists returns
that lock and leaves the state unchanged. -/
theorem get_account_lock_of_mem (st : NonceManagerState) (a k : Int)
    (id : Nat) (h : st.accountLocks a k = some id) :
    get_account_lock st a k = (id, st) := by
  rw [get_account_lock, h]

/-- After a get_account_lock call, the handed-out lock is stored in the
lock map under its pair. -/
theorem get_account_lock_mem (st : NonceManagerState) (a k : Int) :
    (get_account_lock st a k).2.accountLocks a k = some (get_account_lock st a k).1 := by
  rw [get_account_lock]
  cases hl : st.accountLocks a k with
  | some id => exact hl
  | none => simp

/-- C9: no nonce-manager operation ever removes a nonce entry or an
account-lock entry (both maps grow monotonically, and a stored lock keeps
its identity), and once get_account_lock has handed out a lock for a pair,
a later get_account_lock on the resulting state returns the identical
lock. -/
theorem C9_monotone_maps_and_lock_identity :
    (∀ (op : NonceOp) (st : NonceManagerState) (a k : Int),
        ((lookupNonce st a k).isSome = true →
          (lookupNonce (applyOp op st) a k).isSome = true) ∧
        (∀ id : Nat, st.accountLocks a k = some id →
          (applyOp op st).accountLocks a k = some id)) ∧
    (∀ (st : NonceManagerState) (a k : Int),
        (get_account_lock (get_account_lock st a k).2 a k).1
          = (get_account_lock st a k).1) := by
  refine ⟨fun op st a k => ⟨applyOp_isSome op st a k,
    fun id => applyOp_accountLocks op st a k id⟩, fun st a k => ?_⟩
  rw [get_account_lock_of_mem (get_account_lock st a k).2 a k
    (get_account_lock st a k).1 (get_account_lock_mem st a k)]

theorem C9_monotone_maps_and_lock_identity_witness :
    (lookupNonce st0 7 2).isSome = true ∧
      (lookupNonce (applyOp (.ackFailure 7 2) st0) 7 2).isSome = true ∧
      (get_account_lock (get_account_lock emptyState 3 4).2 3 4).1
        = (get_account_lock emptyState 3 4).1 :=
  ⟨by decide,
    (C9_monotone_maps_and_lock_identity.1 (.ackFailure 7 2) st0 7 2).1 (by decide),
    C9_monotone_maps_and_lock_identity.2 emptyState 3 4⟩

/-! The gateway (service/main.py).  An EngineConfig fixes the observable
behavior of the external native signer for one request: whether the
library loaded at startup (the module-level signer variable is not None),
the string returned by SwitchAPIKey (none models a NULL char pointer; the
code tests it with plain if result, so an empty string also counts as
success), the err field of the StrOrErr returned by the sign call, and the
error of the endpoint-specific administrative engine call.  Request fields
other than the account/key-slot identity and the nonce are opaque payload
forwarded to the engine and are not modeled; the optional post-success
co-signature step of sign_transfer and sign_change_api_key is an external
collaborator and is abstracted as succeeding. -/

structure EngineConfig where
  initialized : Bool
  switchResult : Option String
  signErr : Option String
  opErr : Option String

/-- Observable lock/engine events of one request, in program order:
acquiring the per-account lock, acquiring the global signer lock, the
SwitchAPIKey call, and the sign call. -/
inductive GEvent
  | acctLock
  | globalLock
  | switchCall
  | signCall
  deriving DecidableEq

/-- The HTTP-level outcome: success, a 400 client error carrying a detail
string, or a 500 server error. -/
inductive Outcome
  | ok
  | clientErr (msg : String)
  | serverErr (msg : String)
  deriving DecidableEq

/-- The common body of the thirteen sign_* handlers (sign_create_order,
lines 511-596, is the template; the others are structurally identical):
check the signer, acquire the account lock, resolve the nonce, acquire the
global lock, switch the API key via _switch_api_key_internal (lines
279-290: a truthy SwitchAPIKey result raises a 400 with the prefixed
message), perform the sign call (a truthy err field raises a 400 carrying
it verbatim), and return.  No path calls acknowledge_failure. -/
def runSignGeneric (cfg : EngineConfig) (st : NonceManagerState)
    (a k nonce : Int) (apiUrl : Option String) (fetch : Option Int) :
    Outcome × NonceManagerState × List GEvent :=
  if !cfg.initialized then (.serverErr "Signer not initialized", st, [])
  else
    let st1 := (get_account_lock st a k).2
    let r := get_next_nonce st1 a k nonce apiUrl fetch
    if strTruthy cfg.switchResult then
      (.clientErr ("Failed to switch API key: " ++ cfg.switchResult.getD ""), r.2,
        [.acctLock, .globalLock, .switchCall])
    else if strTruthy cfg.signErr then
      (.clientErr (cfg.signErr.getD ""), r.2,
        [.acctLock, .globalLock, .switchCall, .signCall])
    else (.ok, r.2, [.acctLock, .globalLock, .switchCall, .signCall])

/-- The gateway operations: the thirteen signing endpoints and the four
administrative endpoints of main.py. -/
inductive Endpoint
  | signCreateOrder
  | signCancelOrder
  | signModifyOrder
  | signWithdraw
  | signCreateSubAccount
  | signCancelAllOrders
  | signTransfer
  | signCreatePublicPool
  | signUpdatePublicPool
  | signMintShares
  | signBurnShares
  | signUpdateLeverage
  | signChangeApiKey
  | createClient
  | checkClient
  | switchApiKey
  | createAuthToken
  deriving DecidableEq

/-- The signing endpoints, which go through the account-lock and
nonce-resolution path. -/
def isSignEndpoint : Endpoint → Bool
  | .createClient => false
  | .checkClient => false
  | .switchApiKey => false
  | .createAuthToken => false
  | _ => true

/-- One request against an endpoint, from the handler bodies in main.py:
create_client (lines 304-371) checks the signer first, then under the
global lock runs CreateClient and seeds the nonce manager via
initialize_account; check_client (lines 374-393) performs no signer check
at all - with the library unavailable it reaches signer.CheckClient inside
the global lock and the resulting AttributeError surfaces as a 500;
switch_api_key (lines 396-409) acquires the global lock and only then runs
_switch_api_key_internal, whose first line checks the signer;
create_auth_token (lines 1262-1291) checks the signer first, then under
the global lock switches the key and calls CreateAuthToken.  Each sign_*
endpoint runs runSignGeneric. -/
def runEndpoint (e : Endpoint) (cfg : EngineConfig) (st : NonceManagerState)
    (a k nonce : Int) (apiUrl : Option String) (fetch : Option Int) :
    Outcome × NonceManagerState × List GEvent :=
  match e with
  | .createClient =>
    if !cfg.initialized then (.serverErr "Signer not initialized", st, [])
    else if strTruthy cfg.opErr then
      (.clientErr (cfg.opErr.getD ""), st, [.globalLock])
    else (.ok, initialize_account st a k (apiUrl.getD "") fetch, [.globalLock])
  | .checkClient =>
    if !cfg.initialized then
      (.serverErr "NoneType object has no attribute CheckClient", st, [.globalLock])
    else (.ok, st, [.globalLock])
  | .switchApiKey =>
    if !cfg.initialized then
      (.serverErr "Signer not initialized", st, [.globalLock])
    else if strTruthy cfg.switchResult then
      (.clientErr ("Failed to switch API key: " ++ cfg.switchResult.getD ""), st,
        [.globalLock, .switchCall])
    else (.ok, st, [.globalLock, .switchCall])
  | .createAuthToken =>
    if !cfg.initialized then (.serverErr "Signer not initialized", st, [])
    else if strTruthy cfg.switchResult then
      (.clientErr ("Failed to switch API key: " ++ cfg.switchResult.getD ""), st,
        [.globalLock, .switchCall])
    else if strTruthy cfg.opErr then
      (.clientErr (cfg.opErr.getD ""), st, [.globalLock, .switchCall])
    else (.ok, st, [.globalLock, .switchCall])
  | _ => runSignGeneric cfg st a k nonce apiUrl fetch

/-- An engine configuration in which the signer library failed to load at
startup. -/
def uninitCfg : EngineConfig :=
  { initialized := false, switchResult := none, signErr := none, opErr := none }

/-- C3 fails as stated: with the signer uninitialized, the check_client
endpoint acquires the global signer lock (it performs no initialization
check before entering the locked region), so not every gateway operation
fails before acquiring a lock. -/
theorem C3_checkClient_counterexample :
    GEvent.globalLock ∈
      (runEndpoint .checkClient uninitCfg emptyState 0 0 (-1) none none).2.2 := by
  decide

/-- C3 amended: every signing endpoint, together with create_client and
create_auth_token, checks engine initialization and fails immediately with
the initialization error before acquiring any lock; the two exceptions are
check_client, which performs no initialization check and fails only inside
the global signer lock, and switch_api_key, which checks only after
acquiring the global signer lock - both acquire exactly the global lock
before failing. -/
theorem C3_init_check_amended :
    (∀ (e : Endpoint) (cfg : EngineConfig) (st : NonceManagerState)
        (a k nonce : Int) (apiUrl : Option String) (fetch : Option Int),
        cfg.initialized = false → e ≠ .checkClient → e ≠ .switchApiKey →
        runEndpoint e cfg st a k nonce apiUrl fetch
          = (.serverErr "Signer not initialized", st, [])) ∧
    (∀ (cfg : EngineConfig) (st : NonceManagerState)
        (a k nonce : Int) (apiUrl : Option String) (fetch : Option Int),
        cfg.initialized = false →
        (runEndpoint .checkClient cfg st a k nonce apiUrl fetch).2.2 = [.globalLock] ∧
        (runEndpoint .switchApiKey cfg st a k nonce apiUrl fetch).2.2 = [.globalLock]) := by
  constructor
  · intro e cfg st a k nonce apiUrl fetch hinit hcc hsw
    cases e <;> simp_all [runEndpoint, runSignGeneric]
  · intro cfg st a k nonce apiUrl fetch hinit
    constructor <;> simp [runEndpoint, hinit]

theorem C3_init_check_amended_witness :
    uninitCfg.initialized = false ∧
      Endpoint.signCreateOrder ≠ Endpoint.checkClient ∧
      Endpoint.signCreateOrder ≠ Endpoint.switchApiKey ∧
      runEndpoint .signCreateOrder uninitCfg emptyState 7 2 (-1) none none
        = (.serverErr "Signer not initialized", emptyState, []) ∧
      (runEndpoint .checkClient uninitCfg emptyState 7 2 (-1) none none).2.2
        = [.globalLock] :=
  ⟨rfl, by decide, by decide,
    C3_init_check_amended.1 .signCreateOrder uninitCfg emptyState 7 2 (-1) none none
      rfl (by decide) (by decide),
    (C3_init_check_amended.2 uninitCfg emptyState 7 2 (-1) none none rfl).1⟩

/-- C7: on every signing endpoint, a non-empty string returned by the
engine switch-session call yields a 400 client error whose detail is the
prefixed error string, and the sign call is never made. -/
theorem C7_switch_failure (e : Endpoint) (cfg : EngineConfig)
    (st : NonceManagerState) (a k nonce : Int) (apiUrl : Option String)
    (fetch : Option Int) (s : String)
    (he : isSignEndpoint e = true) (hi : cfg.initialized = true)
    (hs : cfg.switchResult = some s) (hne : s ≠ "") :
    (runEndpoint e cfg st a k nonce apiUrl fetch).1
        = .clientErr ("Failed to switch API key: " ++ s) ∧
      GEvent.signCall ∉ (runEndpoint e cfg st a k nonce apiUrl fetch).2.2 := by
  have htr : strTruthy cfg.switchResult = true := by
    rw [hs, strTruthy]
    simpa using fun hemp => hne ((String.isEmpty_iff s).mp hemp)
  cases e <;> simp_all [runEndpoint, runSignGeneric, isSignEndpoint]

/-- An engine configuration whose switch-session call fails with the
string bad-slot. -/
def switchFailCfg : EngineConfig :=
  { initialized := true, switchResult := some "bad-slot", signErr := none, opErr := none }

theorem C7_switch_failure_witness :
    isSignEndpoint .signCancelOrder = true ∧ switchFailCfg.initialized = true ∧
      switchFailCfg.switchResult = some "bad-slot" ∧ "bad-slot" ≠ "" ∧
      ((runEndpoint .signCancelOrder switchFailCfg emptyState 7 2 (-1) none none).1
          = .clientErr ("Failed to switch API key: " ++ "bad-slot") ∧
        GEvent.signCall ∉
          (runEndpoint .signCancelOrder switchFailCfg emptyState 7 2 (-1) none none).2.2) :=
  ⟨rfl, rfl, rfl, by decide,
    C7_switch_failure .signCancelOrder switchFailCfg emptyState 7 2 (-1) none none
      "bad-slot" rfl rfl rfl (by decide)⟩

/-- C8: on every signing endpoint, when the switch succeeds and the engine
sign call returns a non-empty error string, the outcome is a 400 client
error carrying that string verbatim, and the final nonce-manager state is
exactly the state produced by the get_next_nonce reservation: the gateway
performs no rollback (acknowledge_failure is never invoked on this path). -/
theorem C8_sign_failure_no_rollback (e : Endpoint) (cfg : EngineConfig)
    (st : NonceManagerState) (a k nonce : Int) (apiUrl : Option String)
    (fetch : Option Int) (s : String)
    (he : isSignEndpoint e = true) (hi : cfg.initialized = true)
    (hsw : strTruthy cfg.switchResult = false)
    (hs : cfg.signErr = some s) (hne : s ≠ "") :
    runEndpoint e cfg st a k nonce apiUrl fetch
      = (.clientErr s,
          (get_next_nonce (get_account_lock st a k).2 a k nonce apiUrl fetch).2,
          [.acctLock, .globalLock, .switchCall, .signCall]) := by
  have htr : strTruthy cfg.signErr = true := by
    rw [hs, strTruthy]
    simpa using fun hemp => hne ((String.isEmpty_iff s).mp hemp)
  cases e <;> simp_all [runEndpoint, runSignGeneric, isSignEndpoint]

/-- An engine configuration in which switching succeeds and the sign call
fails with the string invalid-nonce. -/
def signFailCfg : EngineConfig :=
  { initialized := true, switchResult := none, signErr := some "invalid-nonce", opErr := none }

theorem C8_sign_failure_no_rollback_witness :
    isSignEndpoint .signCreateOrder = true ∧ signFailCfg.initialized = true ∧
      strTruthy signFailCfg.switchResult = false ∧
      signFailCfg.signErr = some "invalid-nonce" ∧ "invalid-nonce" ≠ "" ∧
      runEndpoint .signCreateOrder signFailCfg st0 7 2 (-1) none none
        = (.clientErr "invalid-nonce",
            (get_next_nonce (get_account_lock st0 7 2).2 7 2 (-1) none none).2,
            [.acctLock, .globalLock, .switchCall, .signCall]) :=
  ⟨rfl, rfl, rfl, rfl, by decide,
    C8_sign_failure_no_rollback .signCreateOrder signFailCfg st0 7 2 (-1) none none
      "invalid-nonce" rfl rfl rfl rfl (by decide)⟩

end SignerManager
